import Mathlib

/-!
Verification of the GeNN transpiler type checker (scanner literal typing,
expression type checking, declaration initialisation) against its
natural-language specification.  The type-checker implementation itself is
not part of the available sources; the definitions below are modelled from
the specification (sections 3, 4.3, 4.4 of spec.md), with the unit tests in
src/tests/unit/typeChecker.cc taken as the authority on concrete behaviour
wherever the two disagree.  Each such divergence is noted on the definition
it affects.
-/

namespace GeNNTypeChecker

/-- Modelled from the spec: the numeric value types used by the transpiler
type system that appear in the specification and in the unit tests
(Type.Int8, Type.Int32, Type.Uint32, Type.Float, Type.Double). -/
inductive NumericType where
  | Int8
  | Int32
  | Uint32
  | Float
  | Double
deriving DecidableEq, Repr, Fintype

/-- Modelled from the spec: integer versus floating classification of
numeric types, used for pointer arithmetic and array-subscript indices. -/
def NumericType.isIntegral : NumericType → Bool
  | .Int8 => true
  | .Int32 => true
  | .Uint32 => true
  | .Float => false
  | .Double => false

/-- Modelled from the spec: bit width of each numeric type, used to state
the promotion-lattice property (the result of a binary operation is at
least as wide as both operands). -/
def NumericType.widthBits : NumericType → Nat
  | .Int8 => 8
  | .Int32 => 32
  | .Uint32 => 32
  | .Float => 32
  | .Double => 64

/-- Modelled from the spec: rank of each numeric type in the promotion
lattice (integer widths widen, float widens to double). -/
def NumericType.rank : NumericType → Nat
  | .Int8 => 0
  | .Int32 => 1
  | .Uint32 => 2
  | .Float => 3
  | .Double => 4

/-- Modelled from the spec: the promotion of two numeric operand types to
the binary-operator result type, the wider or more precise of the two under
the promotion lattice. -/
def NumericType.promote (a b : NumericType) : NumericType :=
  if b.rank ≤ a.rank then a else b

/-- Modelled from the spec: a fully resolved semantic type, either a named
numeric value type or a pointer wrapping exactly one other resolved type;
each carries its own qualifier set, here the single constant qualifier.
Function types, the third category of the specified data model, never nest
inside values or pointers in this core and are kept in a separate
FunctionType structure. -/
inductive ResolvedType where
  | value (numeric : NumericType) (isConst : Bool)
  | pointer (valueType : ResolvedType) (isConst : Bool)
deriving DecidableEq, Repr

/-- Modelled from the spec: a function type, a return type plus an ordered
list of parameter types; overload sets are lists of these. -/
structure FunctionType where
  returnType : ResolvedType
  argTypes : List ResolvedType
deriving DecidableEq, Repr

/-- Modelled from the spec: an environment entry binds a name either to a
single variable type or to a list of candidate function types (an overload
set); variable lookups return exactly one type, function lookups may return
several. -/
inductive EnvEntry where
  | var (type : ResolvedType)
  | funcs (overloads : List FunctionType)
deriving DecidableEq, Repr

/-- Modelled from the spec: the environment, a symbol table from names to
entries.  The chain of nested scopes collapses to a single association list
here because every claim concerns a single scope. -/
abbrev Env : Type := List (String × EnvEntry)

/-- Modelled from the spec: the type context, an ordered mapping from a
source-level alias name, minimally the alias scalar, to a concrete resolved
type. -/
abbrev TypeContext : Type := List (String × ResolvedType)

/-- Lookup of a name in an association list of entries. -/
def lookupEnv : Env → String → Option EnvEntry
  | [], _ => none
  | (k, v) :: rest, n => if k = n then some v else lookupEnv rest n

/-- Lookup of an alias in the type context. -/
def lookupContext : TypeContext → String → Option ResolvedType
  | [], _ => none
  | (k, v) :: rest, n => if k = n then some v else lookupContext rest n

/-- Modelled from the spec: the kinds of literal token the scanner
produces, distinguished by suffix: f suffix, d suffix, unsuffixed integer,
U suffixed integer, unsuffixed floating (resolved through the scalar alias
of the type context) and double-quoted string. -/
inductive LiteralKind where
  | floatLit
  | doubleLit
  | intLit
  | uintLit
  | scalarLit
  | stringLit
deriving DecidableEq, Repr

/-- Modelled from the spec: the binary additive operators the pointer
arithmetic rules of the type checker distinguish. -/
inductive BinaryOp where
  | plus
  | minus
deriving DecidableEq, Repr

/-- Modelled from the spec: the unary operators relevant to the claims,
pointer dereference and address-of. -/
inductive UnaryOp where
  | deref
  | addressOf
deriving DecidableEq, Repr

/-- Modelled from the spec: the expression AST produced by the parser, the
variants the type-checking claims exercise: literal, identifier, unary,
postfix increment or decrement, binary, call, cast, array subscript and
assignment. -/
inductive Expr where
  | literal (kind : LiteralKind)
  | ident (name : String)
  | unary (op : UnaryOp) (operand : Expr)
  | postIncDec (operand : Expr)
  | binary (op : BinaryOp) (left : Expr) (right : Expr)
  | call (callee : String) (args : List Expr)
  | cast (target : ResolvedType) (operand : Expr)
  | subscript (base : Expr) (index : Expr)
  | assign (target : Expr) (source : Expr)

/-- Modelled from the spec: a statement; only the declaration with
initialiser and the expression statement are needed by the claims. -/
inductive Stmt where
  | declare (declType : ResolvedType) (name : String) (init : Expr)
  | exprStmt (e : Expr)

/-- Modelled from the spec: the scanned type of a literal.  A literal with
f suffix is single precision, with d suffix double precision, an unsuffixed
integer is a 32-bit signed integer, a U-suffixed integer a 32-bit unsigned
integer, an unsuffixed floating literal takes the type bound to the scalar
alias in the type context.  A double-quoted string takes the type
Type.Int8.createPointer(Type.Qualifier.CONSTANT): per the definePointer
helper of the unit tests the createPointer argument is the qualifier of the
pointer itself, so a string is a constant pointer to non-const 8-bit
integer (int8 pointer with pointer-level const), not a pointer to constant
int8 as the specification text words it. -/
def literalType (ctx : TypeContext) : LiteralKind → Option ResolvedType
  | .floatLit => some (.value .Float false)
  | .doubleLit => some (.value .Double false)
  | .intLit => some (.value .Int32 false)
  | .uintLit => some (.value .Uint32 false)
  | .scalarLit => lookupContext ctx "scalar"
  | .stringLit => some (.pointer (.value .Int8 false) true)

/-- Modelled from the spec: recursive comparison of a source type against a
target type where the base types must be identical and constness may only
be added, never removed, at any level.  Used for the pointee comparison of
pointer assignments and for pointer casts. -/
def constAddOnly : ResolvedType → ResolvedType → Bool
  | .value sn sc, .value tn tc => sn = tn && (!sc || tc)
  | .pointer sp spc, .pointer tp tpc => constAddOnly sp tp && (!spc || tpc)
  | _, _ => false

/-- Modelled from the spec: assignability of a source type to a target
type.  Numeric to numeric is always allowed, implicit narrowing included;
pointer to pointer requires the pointee base types to match exactly with
constness only added; any mix of pointer and numeric is rejected. -/
def isAssignable (target source : ResolvedType) : Bool :=
  match target, source with
  | .value _ _, .value _ _ => true
  | .pointer tp _, .pointer sp _ => constAddOnly sp tp
  | _, _ => false

/-- Modelled from the spec: legality of an explicit cast from a source type
to a target type.  Numeric to numeric is permitted unless it drops a
constant qualifier present on the source; pointer to pointer is permitted
only when the pointee base types are identical and the qualifier changes
are constness-adding at every level, the pointer level included; any mix of
pointer and numeric is rejected. -/
def canCast (source target : ResolvedType) : Bool :=
  match source, target with
  | .value _ sc, .value _ tc => !sc || tc
  | .pointer sp spc, .pointer tp tpc => constAddOnly sp tp && (!spc || tpc)
  | _, _ => false

/-- Modelled from the spec: whether a call argument satisfies a parameter
of an overload candidate.  The specification words this as assignability,
but the unit tests require sin applied to a double argument to resolve to
the double overload rather than the earlier float overload, which full
numeric assignability cannot produce under first-match selection; the
per-argument check is therefore exact base-type equality with constness
only added. -/
def paramMatch (param arg : ResolvedType) : Bool :=
  constAddOnly arg param

/-- Modelled from the spec: pointwise parameter matching of an argument
type list against a parameter type list of equal length. -/
def argsMatch : List ResolvedType → List ResolvedType → Bool
  | [], [] => true
  | p :: ps, a :: rest => paramMatch p a && argsMatch ps rest
  | _, _ => false

/-- Modelled from the spec: overload resolution.  The first candidate whose
parameter count equals the argument count and whose parameters are all
satisfied is selected and contributes its return type; if no candidate
matches, among them the case where the argument count equals no candidate
parameter count, the call is a type error. -/
def resolveCall : List FunctionType → List ResolvedType → Option ResolvedType
  | [], _ => none
  | f :: rest, argTys =>
      if f.argTypes.length = argTys.length && argsMatch f.argTypes argTys
      then some f.returnType
      else resolveCall rest argTys

/-- Modelled from the spec: the result type of a binary plus or minus on
two operand types.  Two numerics promote through the lattice; pointer minus
pointer is the 32-bit signed integer; pointer plus pointer is a type error;
pointer plus or minus an integer numeric, in either operand order, is that
same pointer type; pointer combined with a non-integer numeric is a type
error. -/
def binaryResultType (op : BinaryOp) (lt rt : ResolvedType) : Option ResolvedType :=
  match lt, rt with
  | .value a _, .value b _ => some (.value (a.promote b) false)
  | .pointer _ _, .pointer _ _ =>
      match op with
      | .minus => some (.value .Int32 false)
      | .plus => none
  | .pointer t pc, .value n _ =>
      if n.isIntegral then some (.pointer t pc) else none
  | .value n _, .pointer t pc =>
      if n.isIntegral then some (.pointer t pc) else none

/-- Modelled from the spec: whether a type carries the constant qualifier
in its own, outermost qualifier set. -/
def ResolvedType.hasConstQualifier : ResolvedType → Bool
  | .value _ c => c
  | .pointer _ c => c

mutual

/-- Modelled from the spec: the type checker for expressions, returning the
resolved type of a well-typed expression and none where the checker raises
a type-check error.  Address-of follows the unit tests rather than the
specification text: it succeeds only on an identifier bound to a value
type, yielding a non-const pointer to it; applied to a pointer variable it
is a type error. -/
def typeCheckExpr (env : Env) (ctx : TypeContext) : Expr → Option ResolvedType
  | .literal k => literalType ctx k
  | .ident n =>
      match lookupEnv env n with
      | some (.var t) => some t
      | _ => none
  | .unary .deref e => do
      let t ← typeCheckExpr env ctx e
      match t with
      | .pointer p _ => some p
      | .value _ _ => none
  | .unary .addressOf e =>
      match e with
      | .ident n =>
          match lookupEnv env n with
          | some (.var (.value m c)) => some (.pointer (.value m c) false)
          | _ => none
      | _ => none
  | .postIncDec e => do
      let t ← typeCheckExpr env ctx e
      match t with
      | .value n c => if c then none else some (.value n false)
      | .pointer p pc => if pc then none else some (.pointer p false)
  | .binary op l r => do
      let lt ← typeCheckExpr env ctx l
      let rt ← typeCheckExpr env ctx r
      binaryResultType op lt rt
  | .call f args =>
      match lookupEnv env f with
      | some (.funcs overloads) => do
          let argTys ← typeCheckArgs env ctx args
          resolveCall overloads argTys
      | _ => none
  | .cast target e => do
      let sourceTy ← typeCheckExpr env ctx e
      if canCast sourceTy target then some target else none
  | .subscript base index => do
      let bt ← typeCheckExpr env ctx base
      let it ← typeCheckExpr env ctx index
      match bt, it with
      | .pointer p _, .value n _ => if n.isIntegral then some p else none
      | _, _ => none
  | .assign target source => do
      let lt ← typeCheckExpr env ctx target
      let rt ← typeCheckExpr env ctx source
      if lt.hasConstQualifier then none
      else if isAssignable lt rt then some lt else none

/-- Modelled from the spec: type checking of a call argument list, left to
right, failing as soon as one argument fails. -/
def typeCheckArgs (env : Env) (ctx : TypeContext) : List Expr → Option (List ResolvedType)
  | [] => some []
  | e :: es => do
      let t ← typeCheckExpr env ctx e
      let ts ← typeCheckArgs env ctx es
      some (t :: ts)

end

/-- Modelled from the spec: type checking of a statement, returning the
environment that follows it, none on a type-check error.  A declaration
with initialiser checks the initialiser type assignable to the declared
type and binds the name; the declared type may carry the constant qualifier
(initialising a const declaration is not an assignment to a const
left-hand side). -/
def typeCheckStmt (env : Env) (ctx : TypeContext) : Stmt → Option Env
  | .declare ty name init => do
      let initTy ← typeCheckExpr env ctx init
      if isAssignable ty initTy then some ((name, .var ty) :: env) else none
  | .exprStmt e => do
      let _ ← typeCheckExpr env ctx e
      some env

/-- Modelled from the spec: the fixed standard-library function table the
call claims consult, each entry an overload set with the single-precision
candidate listed before the double-precision candidate, mirroring the
transcendental and fmax entries the unit tests exercise. -/
def stdLibEnv : Env :=
  [ ("sin", .funcs [⟨.value .Float false, [.value .Float false]⟩,
                    ⟨.value .Double false, [.value .Double false]⟩]),
    ("cos", .funcs [⟨.value .Float false, [.value .Float false]⟩,
                    ⟨.value .Double false, [.value .Double false]⟩]),
    ("exp", .funcs [⟨.value .Float false, [.value .Float false]⟩,
                    ⟨.value .Double false, [.value .Double false]⟩]),
    ("fmax", .funcs [⟨.value .Float false, [.value .Float false, .value .Float false]⟩,
                     ⟨.value .Double false, [.value .Double false, .value .Double false]⟩]) ]


/-- Whether an expression is a bare identifier, the only lvalue form the
address-of rule accepts. -/
def isIdent : Expr → Bool
  | .ident _ => true
  | _ => false

/-- C1: for every binary plus or minus expression, when one operand
resolves to a pointer type P and the other to an integer numeric type, in
either operand order, the type checker returns the same pointer type P;
when both operands resolve to pointer types, minus returns the 32-bit
signed integer type while plus raises a type-check error; when one operand
is a pointer and the other a non-integer numeric, the type checker raises a
type-check error. -/
theorem binary_pointer_arithmetic (env : Env) (ctx : TypeContext) (a b : Expr)
    (T S : ResolvedType) (pq sq ci cf : Bool) (n m : NumericType) :
    (typeCheckExpr env ctx a = some (.pointer T pq) →
     typeCheckExpr env ctx b = some (.value n ci) →
     n.isIntegral = true →
       (typeCheckExpr env ctx (.binary .plus a b) = some (.pointer T pq) ∧
        typeCheckExpr env ctx (.binary .minus a b) = some (.pointer T pq) ∧
        typeCheckExpr env ctx (.binary .plus b a) = some (.pointer T pq) ∧
        typeCheckExpr env ctx (.binary .minus b a) = some (.pointer T pq)))
  ∧ (typeCheckExpr env ctx a = some (.pointer T pq) →
     typeCheckExpr env ctx b = some (.pointer S sq) →
       (typeCheckExpr env ctx (.binary .minus a b) = some (.value .Int32 false) ∧
        typeCheckExpr env ctx (.binary .plus a b) = none))
  ∧ (typeCheckExpr env ctx a = some (.pointer T pq) →
     typeCheckExpr env ctx b = some (.value m cf) →
     m.isIntegral = false →
       (typeCheckExpr env ctx (.binary .plus a b) = none ∧
        typeCheckExpr env ctx (.binary .minus a b) = none ∧
        typeCheckExpr env ctx (.binary .plus b a) = none ∧
        typeCheckExpr env ctx (.binary .minus b a) = none)) := by
  refine ⟨fun ha hb hn => ?_, fun ha hb => ?_, fun ha hb hm => ?_⟩ <;>
    simp [typeCheckExpr, ha, hb, binaryResultType, *]

/-- Closed instance of the C1 theorem at int pointer, int offset and float
offset operands, discharging every hypothesis. -/
theorem binary_pointer_arithmetic_witness :
    (typeCheckExpr [("p", .var (.pointer (.value .Int32 false) false)),
                    ("q", .var (.pointer (.value .Int32 false) false)),
                    ("i", .var (.value .Int32 false)),
                    ("f", .var (.value .Float false))] []
        (.binary .plus (.ident "p") (.ident "i")) = some (.pointer (.value .Int32 false) false)) ∧
    (typeCheckExpr [("p", .var (.pointer (.value .Int32 false) false)),
                    ("q", .var (.pointer (.value .Int32 false) false)),
                    ("i", .var (.value .Int32 false)),
                    ("f", .var (.value .Float false))] []
        (.binary .minus (.ident "p") (.ident "q")) = some (.value .Int32 false)) ∧
    (typeCheckExpr [("p", .var (.pointer (.value .Int32 false) false)),
                    ("q", .var (.pointer (.value .Int32 false) false)),
                    ("i", .var (.value .Int32 false)),
                    ("f", .var (.value .Float false))] []
        (.binary .plus (.ident "p") (.ident "f")) = none) :=
  ⟨((binary_pointer_arithmetic _ [] (.ident "p") (.ident "i")
      (.value .Int32 false) (.value .Int32 false) false false false false .Int32 .Float).1
      (by decide) (by decide) (by decide)).1,
   ((binary_pointer_arithmetic _ [] (.ident "p") (.ident "q")
      (.value .Int32 false) (.value .Int32 false) false false false false .Int32 .Float).2.1
      (by decide) (by decide)).1,
   ((binary_pointer_arithmetic _ [] (.ident "p") (.ident "f")
      (.value .Int32 false) (.value .Int32 false) false false false false .Int32 .Float).2.2
      (by decide) (by decide) (by decide)).1⟩


/-- C4: for every array-subscript expression, when the base resolves to a
pointer type with pointee T and the index resolves to an integer numeric
type, the type checker returns T, retaining the value-level qualifiers of T
but not the pointer-level qualifier; when the index resolves to a
floating-point type or to a pointer type, the type checker raises a
type-check error. -/
theorem array_subscript_type (env : Env) (ctx : TypeContext) (b i : Expr)
    (T S : ResolvedType) (pq sq ci cf : Bool) (n m : NumericType) :
    (typeCheckExpr env ctx b = some (.pointer T pq) →
     typeCheckExpr env ctx i = some (.value n ci) →
     n.isIntegral = true →
       typeCheckExpr env ctx (.subscript b i) = some T)
  ∧ (typeCheckExpr env ctx b = some (.pointer T pq) →
     typeCheckExpr env ctx i = some (.value m cf) →
     m.isIntegral = false →
       typeCheckExpr env ctx (.subscript b i) = none)
  ∧ (typeCheckExpr env ctx b = some (.pointer T pq) →
     typeCheckExpr env ctx i = some (.pointer S sq) →
       typeCheckExpr env ctx (.subscript b i) = none) := by
  refine ⟨fun hb hi hn => ?_, fun hb hi hm => ?_, fun hb hi => ?_⟩ <;>
    simp [typeCheckExpr, hb, hi, *]

/-- Closed instance of the C4 theorem: indexing an int pointer with an int
yields int, indexing with a float or with a pointer is a type error. -/
theorem array_subscript_type_witness :
    (typeCheckExpr [("b", .var (.pointer (.value .Int32 false) false)),
                    ("i", .var (.value .Int32 false)),
                    ("f", .var (.value .Float false)),
                    ("j", .var (.pointer (.value .Int32 false) false))] []
        (.subscript (.ident "b") (.ident "i")) = some (.value .Int32 false)) ∧
    (typeCheckExpr [("b", .var (.pointer (.value .Int32 false) false)),
                    ("i", .var (.value .Int32 false)),
                    ("f", .var (.value .Float false)),
                    ("j", .var (.pointer (.value .Int32 false) false))] []
        (.subscript (.ident "b") (.ident "f")) = none) ∧
    (typeCheckExpr [("b", .var (.pointer (.value .Int32 false) false)),
                    ("i", .var (.value .Int32 false)),
                    ("f", .var (.value .Float false)),
                    ("j", .var (.pointer (.value .Int32 false) false))] []
        (.subscript (.ident "b") (.ident "j")) = none) :=
  ⟨(array_subscript_type _ [] (.ident "b") (.ident "i")
      (.value .Int32 false) (.value .Int32 false) false false false false .Int32 .Float).1
      (by decide) (by decide) (by decide),
   (array_subscript_type _ [] (.ident "b") (.ident "f")
      (.value .Int32 false) (.value .Int32 false) false false false false .Int32 .Float).2.1
      (by decide) (by decide) (by decide),
   (array_subscript_type _ [] (.ident "b") (.ident "j")
      (.value .Int32 false) (.value .Int32 false) false false false false .Int32 .Float).2.2
      (by decide) (by decide)⟩

/-- C6: for every increment or decrement expression, an operand of
non-const numeric type gives that numeric type without the constant
qualifier; an operand that is a pointer whose pointer-level qualifier is
non-const, the pointee possibly const, gives a pointer to the same pointee
type with the pointer-level constant qualifier cleared; a const-qualified
numeric operand or a pointer operand with pointer-level const raises a
type-check error. -/
theorem increment_decrement_rules (env : Env) (ctx : TypeContext) (e : Expr)
    (T : ResolvedType) (n : NumericType) :
    (typeCheckExpr env ctx e = some (.value n false) →
       typeCheckExpr env ctx (.postIncDec e) = some (.value n false))
  ∧ (typeCheckExpr env ctx e = some (.pointer T false) →
       typeCheckExpr env ctx (.postIncDec e) = some (.pointer T false))
  ∧ (typeCheckExpr env ctx e = some (.value n true) →
       typeCheckExpr env ctx (.postIncDec e) = none)
  ∧ (typeCheckExpr env ctx e = some (.pointer T true) →
       typeCheckExpr env ctx (.postIncDec e) = none) := by
  refine ⟨fun h => ?_, fun h => ?_, fun h => ?_, fun h => ?_⟩ <;>
    simp [typeCheckExpr, h]

/-- Closed instance of the C6 theorem: incrementing a non-const int, a
plain int pointer and a pointer to const int succeed with the stated
result types; incrementing a const int or a pointer-level-const pointer is
a type error. -/
theorem increment_decrement_rules_witness :
    (typeCheckExpr [("x", .var (.value .Int32 false))] []
        (.postIncDec (.ident "x")) = some (.value .Int32 false)) ∧
    (typeCheckExpr [("p", .var (.pointer (.value .Int32 true) false))] []
        (.postIncDec (.ident "p")) = some (.pointer (.value .Int32 true) false)) ∧
    (typeCheckExpr [("c", .var (.value .Int32 true))] []
        (.postIncDec (.ident "c")) = none) ∧
    (typeCheckExpr [("q", .var (.pointer (.value .Int32 false) true))] []
        (.postIncDec (.ident "q")) = none) :=
  ⟨(increment_decrement_rules _ [] (.ident "x") (.value .Int32 true) .Int32).1 (by decide),
   (increment_decrement_rules _ [] (.ident "p") (.value .Int32 true) .Int32).2.1 (by decide),
   (increment_decrement_rules _ [] (.ident "c") (.value .Int32 true) .Int32).2.2.1 (by decide),
   (increment_decrement_rules _ [] (.ident "q") (.value .Int32 false) .Int32).2.2.2 (by decide)⟩

/-- C10: for every dereference expression, the result is the pointee type
with its own value-level qualifiers and nothing of the pointer-level
qualifier: dereferencing a pointer whose pointer-level qualifier is const
but whose pointee is non-const yields the unqualified pointee type, and
dereferencing a pointer to a const pointee yields the const-qualified
pointee type, in both cases whatever the pointer-level qualifier. -/
theorem dereference_qualifier_rules (env : Env) (ctx : TypeContext) (e : Expr)
    (T : ResolvedType) (n : NumericType) (pc : Bool) :
    (typeCheckExpr env ctx e = some (.pointer T pc) →
       typeCheckExpr env ctx (.unary .deref e) = some T)
  ∧ (typeCheckExpr env ctx e = some (.pointer (.value n false) pc) →
       typeCheckExpr env ctx (.unary .deref e) = some (.value n false))
  ∧ (typeCheckExpr env ctx e = some (.pointer (.value n true) pc) →
       typeCheckExpr env ctx (.unary .deref e) = some (.value n true)) := by
  refine ⟨fun h => ?_, fun h => ?_, fun h => ?_⟩ <;> simp [typeCheckExpr, h]

/-- Closed instance of the C10 theorem: dereferencing a pointer-level-const
pointer to non-const int yields non-const int, and dereferencing a
pointer-level-const pointer to const int yields const int. -/
theorem dereference_qualifier_rules_witness :
    (typeCheckExpr [("p", .var (.pointer (.value .Int32 false) true))] []
        (.unary .deref (.ident "p")) = some (.value .Int32 false)) ∧
    (typeCheckExpr [("q", .var (.pointer (.value .Int32 true) true))] []
        (.unary .deref (.ident "q")) = some (.value .Int32 true)) :=
  ⟨(dereference_qualifier_rules _ [] (.ident "p") (.value .Int32 false) .Int32 true).2.1
      (by decide),
   (dereference_qualifier_rules _ [] (.ident "q") (.value .Int32 false) .Int32 true).2.2
      (by decide)⟩

/-- C2: for every cast expression, a cast between two numeric types
succeeds exactly when it does not drop a constant qualifier present on the
source, and returns the target type, which may add the qualifier; a cast
between two pointer types succeeds only when the pointee base types are
identical and the qualifier change only adds constness, at the value or at
the pointer level, while removing constness at either level or
reinterpreting between different pointee base types raises a type-check
error; a cast between a numeric and a pointer type, in either direction,
raises a type-check error. -/
theorem cast_qualifier_rules (env : Env) (ctx : TypeContext) (e : Expr)
    (S T : ResolvedType) (ns nt : NumericType) (cs ct spc tpc : Bool) :
    (typeCheckExpr env ctx e = some (.value ns cs) → (!cs || ct) = true →
       typeCheckExpr env ctx (.cast (.value nt ct) e) = some (.value nt ct))
  ∧ (typeCheckExpr env ctx e = some (.value ns true) →
       typeCheckExpr env ctx (.cast (.value nt false) e) = none)
  ∧ (typeCheckExpr env ctx e = some (.pointer S spc) →
     constAddOnly S T = true → (!spc || tpc) = true →
       typeCheckExpr env ctx (.cast (.pointer T tpc) e) = some (.pointer T tpc))
  ∧ (typeCheckExpr env ctx e = some (.pointer S spc) → constAddOnly S T = false →
       typeCheckExpr env ctx (.cast (.pointer T tpc) e) = none)
  ∧ (typeCheckExpr env ctx e = some (.pointer S true) →
       typeCheckExpr env ctx (.cast (.pointer T false) e) = none)
  ∧ (typeCheckExpr env ctx e = some (.value ns cs) →
       typeCheckExpr env ctx (.cast (.pointer T tpc) e) = none)
  ∧ (typeCheckExpr env ctx e = some (.pointer S spc) →
       typeCheckExpr env ctx (.cast (.value nt ct) e) = none) := by
  refine ⟨fun h1 h2 => ?_, fun h1 => ?_, fun h1 h2 h3 => ?_, fun h1 h2 => ?_,
          fun h1 => ?_, fun h1 => ?_, fun h1 => ?_⟩ <;>
    simp [typeCheckExpr, canCast, h1, *]

/-- Closed instance of the C2 theorem, mirroring the unit tests: casting
int to float and int to const int succeed, casting away value const fails,
adding pointee const to an int pointer succeeds, removing pointee const or
reinterpreting to a float pointer fails, and both numeric-to-pointer and
pointer-to-numeric casts fail. -/
theorem cast_qualifier_rules_witness :
    (typeCheckExpr [("v", .var (.value .Int32 false))] []
        (.cast (.value .Float false) (.ident "v")) = some (.value .Float false)) ∧
    (typeCheckExpr [("c", .var (.value .Int32 true))] []
        (.cast (.value .Int32 false) (.ident "c")) = none) ∧
    (typeCheckExpr [("p", .var (.pointer (.value .Int32 false) false))] []
        (.cast (.pointer (.value .Int32 true) false) (.ident "p"))
      = some (.pointer (.value .Int32 true) false)) ∧
    (typeCheckExpr [("q", .var (.pointer (.value .Int32 true) false))] []
        (.cast (.pointer (.value .Int32 false) false) (.ident "q")) = none) ∧
    (typeCheckExpr [("r", .var (.pointer (.value .Int32 false) true))] []
        (.cast (.pointer (.value .Int32 false) false) (.ident "r")) = none) ∧
    (typeCheckExpr [("v", .var (.value .Int32 false))] []
        (.cast (.pointer (.value .Int32 false) false) (.ident "v")) = none) ∧
    (typeCheckExpr [("p", .var (.pointer (.value .Int32 false) false))] []
        (.cast (.value .Int32 false) (.ident "p")) = none) :=
  ⟨(cast_qualifier_rules _ [] (.ident "v") (.value .Int32 false) (.value .Int32 false)
      .Int32 .Float false false false false).1 (by decide) (by decide),
   (cast_qualifier_rules _ [] (.ident "c") (.value .Int32 false) (.value .Int32 false)
      .Int32 .Int32 false false false false).2.1 (by decide),
   (cast_qualifier_rules _ [] (.ident "p") (.value .Int32 false) (.value .Int32 true)
      .Int32 .Int32 false false false false).2.2.1 (by decide) (by decide) (by decide),
   (cast_qualifier_rules _ [] (.ident "q") (.value .Int32 true) (.value .Int32 false)
      .Int32 .Int32 false false false false).2.2.2.1 (by decide) (by decide),
   (cast_qualifier_rules _ [] (.ident "r") (.value .Int32 false) (.value .Int32 false)
      .Int32 .Int32 false false false false).2.2.2.2.1 (by decide),
   (cast_qualifier_rules _ [] (.ident "v") (.value .Int32 false) (.value .Int32 false)
      .Int32 .Int32 false false false false).2.2.2.2.2.1 (by decide),
   (cast_qualifier_rules _ [] (.ident "p") (.value .Int32 false) (.value .Int32 false)
      .Int32 .Int32 false false false false).2.2.2.2.2.2 (by decide)⟩

/-- C5: for every assignment, declaration initialisation included, when
both sides are numeric the assignment type-checks whatever the relative
widths, implicit narrowing included; when both sides are pointers it
type-checks exactly when the pointee base types match and the pointee
constness of the target is equal to or a superset of that of the source;
initialising a non-const-pointee pointer from a const-pointee source raises
a type-check error, as does initialising from a pointer with a different
pointee base type. -/
theorem assignment_rules (env : Env) (ctx : TypeContext) (e l r : Expr)
    (SP TP : ResolvedType) (ns nt n m : NumericType) (sc dc sq tq cr : Bool) :
    (typeCheckExpr env ctx e = some (.value ns sc) →
       typeCheckStmt env ctx (.declare (.value nt dc) "x" e)
         = some (("x", .var (.value nt dc)) :: env))
  ∧ (typeCheckExpr env ctx e = some (.pointer SP sq) → constAddOnly SP TP = true →
       typeCheckStmt env ctx (.declare (.pointer TP tq) "x" e)
         = some (("x", .var (.pointer TP tq)) :: env))
  ∧ (typeCheckExpr env ctx e = some (.pointer (.value n true) sq) →
       typeCheckStmt env ctx (.declare (.pointer (.value n false) tq) "x" e) = none)
  ∧ (typeCheckExpr env ctx e = some (.pointer (.value n sc) sq) → n ≠ m →
       typeCheckStmt env ctx (.declare (.pointer (.value m dc) tq) "x" e) = none)
  ∧ (typeCheckExpr env ctx l = some (.value nt false) →
     typeCheckExpr env ctx r = some (.value ns cr) →
       typeCheckExpr env ctx (.assign l r) = some (.value nt false)) := by
  refine ⟨fun h1 => ?_, fun h1 h2 => ?_, fun h1 => ?_, fun h1 h2 => ?_, fun h1 h2 => ?_⟩ <;>
    simp [typeCheckStmt, typeCheckExpr, isAssignable, constAddOnly,
          ResolvedType.hasConstQualifier, h1, *]

/-- Closed instance of the C5 theorem, mirroring the unit tests: an int
declaration from an int variable, a const-pointee pointer declaration from
a plain int pointer, the failing attempt to drop pointee const, the failing
int-pointer to float-pointer initialisation, and assignment through a
dereferenced int pointer. -/
theorem assignment_rules_witness :
    (typeCheckStmt [("v", .var (.value .Int32 false))] []
        (.declare (.value .Int32 false) "x" (.ident "v"))
      = some (("x", .var (.value .Int32 false)) :: [("v", .var (.value .Int32 false))])) ∧
    (typeCheckStmt [("p", .var (.pointer (.value .Int32 false) false))] []
        (.declare (.pointer (.value .Int32 true) false) "x" (.ident "p"))
      = some (("x", .var (.pointer (.value .Int32 true) false))
               :: [("p", .var (.pointer (.value .Int32 false) false))])) ∧
    (typeCheckStmt [("q", .var (.pointer (.value .Int32 true) false))] []
        (.declare (.pointer (.value .Int32 false) false) "x" (.ident "q")) = none) ∧
    (typeCheckStmt [("p", .var (.pointer (.value .Int32 false) false))] []
        (.declare (.pointer (.value .Float false) false) "x" (.ident "p")) = none) ∧
    (typeCheckExpr [("p", .var (.pointer (.value .Int32 false) false))] []
        (.assign (.unary .deref (.ident "p")) (.literal .intLit))
      = some (.value .Int32 false)) :=
  ⟨(assignment_rules _ [] (.ident "v") (.ident "v") (.ident "v")
      (.value .Int32 false) (.value .Int32 false)
      .Int32 .Int32 .Int32 .Int32 false false false false false).1 (by decide),
   (assignment_rules _ [] (.ident "p") (.ident "p") (.ident "p")
      (.value .Int32 false) (.value .Int32 true)
      .Int32 .Int32 .Int32 .Int32 false false false false false).2.1 (by decide) (by decide),
   (assignment_rules _ [] (.ident "q") (.ident "q") (.ident "q")
      (.value .Int32 false) (.value .Int32 false)
      .Int32 .Int32 .Int32 .Int32 false false false false false).2.2.1 (by decide),
   (assignment_rules _ [] (.ident "p") (.ident "p") (.ident "p")
      (.value .Int32 false) (.value .Int32 false)
      .Int32 .Int32 .Int32 .Float false false false false false).2.2.2.1
      (by decide) (by decide),
   (assignment_rules _ [] (.ident "p") (.unary .deref (.ident "p")) (.literal .intLit)
      (.value .Int32 false) (.value .Int32 false)
      .Int32 .Int32 .Int32 .Int32 false false false false false).2.2.2.2
      (by decide) (by decide)⟩

/-- C3 counterexample: for a variable p bound in the environment to the
pointer type int pointer, type checking the address-of expression on p does
not succeed with a pointer-to-pointer type; the checker raises a type-check
error, exactly as the unit test expects a TypeCheckError for the address of
a pointer variable. -/
theorem address_of_pointer_variable_cex :
    typeCheckExpr [("p", .var (.pointer (.value .Int32 false) false))] []
        (.unary .addressOf (.ident "p")) = none := by decide

/-- C3 amended: address-of a variable bound to a numeric value type
succeeds and yields a non-const pointer to that type; address-of a variable
bound to a pointer type raises a type-check error, and address-of any
expression that is not a bare identifier, a non-lvalue, raises a type-check
error. -/
theorem address_of_rules (env : Env) (ctx : TypeContext) (e : Expr) (name : String)
    (T : ResolvedType) (pq c : Bool) (n : NumericType) :
    (lookupEnv env name = some (.var (.value n c)) →
       typeCheckExpr env ctx (.unary .addressOf (.ident name))
         = some (.pointer (.value n c) false))
  ∧ (lookupEnv env name = some (.var (.pointer T pq)) →
       typeCheckExpr env ctx (.unary .addressOf (.ident name)) = none)
  ∧ (isIdent e = false →
       typeCheckExpr env ctx (.unary .addressOf e) = none) := by
  refine ⟨fun h => ?_, fun h => ?_, fun h => ?_⟩
  · simp [typeCheckExpr, h]
  · simp [typeCheckExpr, h]
  · cases e <;> simp_all [isIdent, typeCheckExpr]

/-- Closed instance of the C3 amended theorem: address-of an int variable
yields a non-const pointer to non-const int, address-of an int pointer
variable is a type error, and address-of a literal is a type error. -/
theorem address_of_rules_witness :
    (typeCheckExpr [("v", .var (.value .Int32 false))] []
        (.unary .addressOf (.ident "v")) = some (.pointer (.value .Int32 false) false)) ∧
    (typeCheckExpr [("p", .var (.pointer (.value .Int32 false) false))] []
        (.unary .addressOf (.ident "p")) = none) ∧
    (typeCheckExpr [] [] (.unary .addressOf (.literal .intLit)) = none) :=
  ⟨(address_of_rules _ [] (.literal .intLit) "v"
      (.value .Int32 false) false false .Int32).1 (by decide),
   (address_of_rules _ [] (.literal .intLit) "p"
      (.value .Int32 false) false false .Int32).2.1 (by decide),
   (address_of_rules [] [] (.literal .intLit) "p"
      (.value .Int32 false) false false .Int32).2.2 (by decide)⟩

/-- C7 counterexample: the double-quoted string literal type checks to a
const-qualified pointer, at the pointer level, to non-const 8-bit integer,
which is a different resolved type from the pointer to constant 8-bit
integer the claim names. -/
theorem string_literal_type_cex :
    typeCheckExpr [] [] (.literal .stringLit) = some (.pointer (.value .Int8 false) true)
  ∧ ResolvedType.pointer (.value .Int8 false) true ≠ .pointer (.value .Int8 true) false := by
  decide

/-- C7 amended: a literal with f suffix resolves to single-precision
float, with d suffix to double, an unsuffixed integer literal to 32-bit
signed int, a U-suffixed integer literal to 32-bit unsigned int, an
unsuffixed floating literal to the type bound to scalar in the active type
context, and a double-quoted string literal to a const-qualified pointer,
const at the pointer level, to non-const 8-bit integer. -/
theorem literal_type_rules (env : Env) (ctx : TypeContext) (t : ResolvedType) :
    (typeCheckExpr env ctx (.literal .floatLit) = some (.value .Float false))
  ∧ (typeCheckExpr env ctx (.literal .doubleLit) = some (.value .Double false))
  ∧ (typeCheckExpr env ctx (.literal .intLit) = some (.value .Int32 false))
  ∧ (typeCheckExpr env ctx (.literal .uintLit) = some (.value .Uint32 false))
  ∧ (lookupContext ctx "scalar" = some t →
       typeCheckExpr env ctx (.literal .scalarLit) = some t)
  ∧ (typeCheckExpr env ctx (.literal .stringLit)
       = some (.pointer (.value .Int8 false) true)) := by
  refine ⟨?_, ?_, ?_, ?_, fun h => ?_, ?_⟩ <;> simp [typeCheckExpr, literalType, *]

/-- Closed instance of the C7 amended theorem at a scalar binding of
single-precision float, discharging the scalar-lookup hypothesis. -/
theorem literal_type_rules_witness :
    (typeCheckExpr [] [("scalar", .value .Float false)] (.literal .floatLit)
       = some (.value .Float false)) ∧
    (typeCheckExpr [] [("scalar", .value .Float false)] (.literal .scalarLit)
       = some (.value .Float false)) ∧
    (typeCheckExpr [] [("scalar", .value .Float false)] (.literal .stringLit)
       = some (.pointer (.value .Int8 false) true)) :=
  ⟨(literal_type_rules [] [("scalar", .value .Float false)] (.value .Float false)).1,
   (literal_type_rules [] [("scalar", .value .Float false)] (.value .Float false)).2.2.2.2.1
      (by decide),
   (literal_type_rules [] [("scalar", .value .Float false)] (.value .Float false)).2.2.2.2.2⟩

/-- C8 counterexample: in the standard-library table the first
arity-matching overload of sin is the single-precision one and a double
argument is assignable to its float parameter, yet the call of sin on a
double literal resolves to double, not to the return type of that first
assignability-satisfying candidate. -/
theorem call_first_assignable_overload_cex :
    lookupEnv stdLibEnv "sin"
      = some (.funcs [⟨.value .Float false, [.value .Float false]⟩,
                      ⟨.value .Double false, [.value .Double false]⟩])
  ∧ isAssignable (.value .Float false) (.value .Double false) = true
  ∧ typeCheckExpr stdLibEnv [] (.call "sin" [.literal .doubleLit])
      = some (.value .Double false)
  ∧ (ResolvedType.value .Double false) ≠ .value .Float false := by decide

/-- C8 amended: for every call expression, when the argument count equals
no overload candidate parameter count the type checker raises a type-check
error; when the argument count matches a candidate and every argument type
matches the corresponding parameter type exactly, base types identical with
constness at most added, the call resolves to the return type of the first
such candidate; concretely, sin on one float argument resolves to float and
sin on one double argument resolves to double. -/
theorem call_arity_and_overload :
    (∀ (fs : List FunctionType) (ts : List ResolvedType),
       (∀ f ∈ fs, f.argTypes.length ≠ ts.length) → resolveCall fs ts = none)
  ∧ (∀ (f : FunctionType) (fs : List FunctionType) (ts : List ResolvedType),
       f.argTypes.length = ts.length → argsMatch f.argTypes ts = true →
         resolveCall (f :: fs) ts = some f.returnType)
  ∧ (∀ (env : Env) (ctx : TypeContext) (name : String) (args : List Expr)
       (fs : List FunctionType) (tys : List ResolvedType),
       lookupEnv env name = some (.funcs fs) →
       typeCheckArgs env ctx args = some tys →
         typeCheckExpr env ctx (.call name args) = resolveCall fs tys)
  ∧ (typeCheckExpr stdLibEnv [] (.call "sin" []) = none)
  ∧ (typeCheckExpr stdLibEnv [] (.call "sin" [.literal .floatLit, .literal .floatLit]) = none)
  ∧ (typeCheckExpr stdLibEnv [] (.call "sin" [.literal .floatLit]) = some (.value .Float false))
  ∧ (typeCheckExpr stdLibEnv [] (.call "sin" [.literal .doubleLit]) = some (.value .Double false)) := by
  refine ⟨?_, ?_, ?_, by decide, by decide, by decide, by decide⟩
  · intro fs ts h
    induction fs with
    | nil => simp [resolveCall]
    | cons f rest ih =>
        have hf := h f (List.mem_cons_self f rest)
        simp [resolveCall, hf]
        exact ih (fun g hg => h g (List.mem_cons_of_mem f hg))
  · intro f fs ts h1 h2
    simp [resolveCall, h1, h2]
  · intro env ctx name args fs tys h1 h2
    simp [typeCheckExpr, h1, h2]

/-- Closed instance of the C8 amended theorem: no sin overload takes two
arguments so a two-argument call fails to resolve; the first overload of
fmax matches two float arguments exactly and contributes its float return
type; and the call expression for sin over one float literal reduces to
overload resolution over the sin candidates. -/
theorem call_arity_and_overload_witness :
    (resolveCall [⟨.value .Float false, [.value .Float false]⟩,
                  ⟨.value .Double false, [.value .Double false]⟩]
                 [.value .Float false, .value .Float false] = none) ∧
    (resolveCall [⟨.value .Float false, [.value .Float false, .value .Float false]⟩]
                 [.value .Float false, .value .Float false]
       = some (.value .Float false)) ∧
    (typeCheckExpr stdLibEnv [] (.call "sin" [.literal .floatLit])
       = resolveCall [⟨.value .Float false, [.value .Float false]⟩,
                      ⟨.value .Double false, [.value .Double false]⟩]
                     [.value .Float false]) :=
  ⟨call_arity_and_overload.1
      [⟨.value .Float false, [.value .Float false]⟩,
       ⟨.value .Double false, [.value .Double false]⟩]
      [.value .Float false, .value .Float false] (by decide),
   call_arity_and_overload.2.1
      ⟨.value .Float false, [.value .Float false, .value .Float false]⟩ []
      [.value .Float false, .value .Float false] (by decide) (by decide),
   call_arity_and_overload.2.2.1 stdLibEnv [] "sin" [.literal .floatLit]
      [⟨.value .Float false, [.value .Float false]⟩,
       ⟨.value .Double false, [.value .Double false]⟩]
      [.value .Float false] (by decide) (by decide)⟩

/-- C9: for every pair of numeric types the binary arithmetic result type
assigned by the type checker is symmetric in the operands and is at least
as wide and as high in the promotion lattice as both operands. -/
theorem numeric_promotion_lattice :
    ∀ a b : NumericType,
      (typeCheckExpr [("x", .var (.value a false)), ("y", .var (.value b false))] []
          (.binary .plus (.ident "x") (.ident "y")) = some (.value (a.promote b) false))
    ∧ (typeCheckExpr [("x", .var (.value a false)), ("y", .var (.value b false))] []
          (.binary .plus (.ident "x") (.ident "y"))
        = typeCheckExpr [("x", .var (.value b false)), ("y", .var (.value a false))] []
          (.binary .plus (.ident "x") (.ident "y")))
    ∧ a.promote b = b.promote a
    ∧ a.widthBits ≤ (a.promote b).widthBits
    ∧ b.widthBits ≤ (a.promote b).widthBits
    ∧ a.rank ≤ (a.promote b).rank
    ∧ b.rank ≤ (a.promote b).rank := by decide
end GeNNTypeChecker
